import Mathlib

/-!
# Verification of the forum-api thread/comment/reply logic

Shallow embedding of the forum-api repository's data model and operations.

Relational rows are modelled as Lean structures; a table is a `List` of rows.
`TIMESTAMP` values are modelled by their ISO-8601 string rendering (the code
itself converts dates with `toISOString` before returning them), under which
SQL `ORDER BY date ASC` coincides with the lexicographic order on strings.
`ORDER BY` is modelled by `List.mergeSort`, which is stable, matching
PostgreSQL's sort on the rows produced by these queries.

Fallible repository methods (`throw NotFoundError` / `AuthorizationError`)
are embedded as `Except RepoError`.

Functions translated from `src/Infrastructures/repository/ReplyRepositoryPostgres.js`
carry doc comments naming the method; components of the repository whose
implementation files are absent (only their unit tests are available) are
modelled from the specification and marked `Modelled from the spec:`.
-/

namespace ForumApi

/-- A row of the `users` table (id, username). -/
structure UserRow where
  id : String
  username : String
deriving DecidableEq

/-- A row of the `threads` table (id, title, body, user_id, date). -/
structure ThreadRow where
  id : String
  title : String
  body : String
  user_id : String
  date : String
deriving DecidableEq

/-- A row of the `comments` table (id, content, user_id, thread_id, date, is_delete). -/
structure CommentRow where
  id : String
  content : String
  user_id : String
  thread_id : String
  date : String
  is_delete : Bool
deriving DecidableEq

/-- A row of the `replies` table, per the migration in the repository:
id, content, user_id, comment_id, date (default CURRENT_TIMESTAMP),
is_delete (default false). -/
structure ReplyRow where
  id : String
  content : String
  user_id : String
  comment_id : String
  date : String
  is_delete : Bool
deriving DecidableEq

/-- The relational state touched by the forum logic. -/
structure ForumDb where
  users : List UserRow
  threads : List ThreadRow
  comments : List CommentRow
  replies : List ReplyRow
deriving DecidableEq

/-- The two error signals raised by the repositories:
`NotFoundError` and `AuthorizationError`. -/
inductive RepoError where
  | notFound
  | authorization
deriving DecidableEq

/-- Thread record as returned by the thread repository
(id, title, body, date, username). -/
structure ThreadView where
  id : String
  title : String
  body : String
  date : String
  username : String
deriving DecidableEq

/-- Comment record as returned by `getCommentsByThreadId`
(id, username, date, content, is_delete). -/
structure CommentView where
  id : String
  username : String
  date : String
  content : String
  is_delete : Bool
deriving DecidableEq

/-- Reply record as returned by `getRepliesByThreadId`
(id, content, date, username, comment_id, is_delete). -/
structure ReplyView where
  id : String
  content : String
  date : String
  username : String
  comment_id : String
  is_delete : Bool
deriving DecidableEq

/-- `LEFT JOIN users ON (x.user_id = users.id)` projection of `users.username`.
Under the schema's foreign-key constraint the user always exists; an absent
user (SQL NULL) is rendered as the empty string. -/
def lookupUsername (users : List UserRow) (userId : String) : String :=
  match users.find? (fun u => u.id == userId) with
  | some u => u.username
  | none => ""

/-- `ReplyRepositoryPostgres.verifyAvailableReplyById`:
`SELECT id FROM replies WHERE id = $1 AND is_delete = false`;
throws `NotFoundError` when `rowCount` is zero. -/
def verifyAvailableReplyById (replies : List ReplyRow) (replyId : String) :
    Except RepoError Unit :=
  if ((replies.filter (fun r => r.id == replyId && r.is_delete == false)).length) = 0 then
    Except.error RepoError.notFound
  else
    Except.ok ()

/-- `ReplyRepositoryPostgres.verifyReplyByOwner`:
`SELECT id FROM replies WHERE id = $1 AND user_id = $2`;
throws `AuthorizationError` when `rowCount` is zero. -/
def verifyReplyByOwner (replies : List ReplyRow) (replyId : String) (owner : String) :
    Except RepoError Unit :=
  if ((replies.filter (fun r => r.id == replyId && r.user_id == owner)).length) = 0 then
    Except.error RepoError.authorization
  else
    Except.ok ()

/-- Row-to-view projection of the `getRepliesByThreadId` SELECT list:
`replies.id, users.username, replies.date, replies.content, replies.comment_id,
replies.is_delete`, with the date rendered as an ISO string. -/
def toReplyView (users : List UserRow) (r : ReplyRow) : ReplyView :=
  { id := r.id
    content := r.content
    date := r.date
    username := lookupUsername users r.user_id
    comment_id := r.comment_id
    is_delete := r.is_delete }

/-- `ReplyRepositoryPostgres.getRepliesByThreadId`: joins replies to their
parent comment, keeps those whose comment belongs to the given thread
(`WHERE comments.thread_id = $1`), orders by `replies.date ASC`, and projects
the SELECT list. -/
def getRepliesByThreadId (replies : List ReplyRow) (comments : List CommentRow)
    (users : List UserRow) (threadId : String) : List ReplyView :=
  (((replies.filter (fun r =>
        comments.any (fun c => c.id == r.comment_id && c.thread_id == threadId))).mergeSort
      (fun a b => decide (a.date ≤ b.date))).map (toReplyView users))

/-- `ReplyRepositoryPostgres.softDeleteReplyById`:
`UPDATE replies SET is_delete = TRUE WHERE id = $1`;
throws `NotFoundError` when `rowCount` is zero (no row matched). -/
def softDeleteReplyById (replies : List ReplyRow) (replyId : String) :
    Except RepoError (List ReplyRow) :=
  if ((replies.filter (fun r => r.id == replyId)).length) = 0 then
    Except.error RepoError.notFound
  else
    Except.ok (replies.map (fun r =>
      if r.id == replyId then { r with is_delete := true } else r))

/-- Modelled from the spec: `ThreadRepositoryPostgres.getThreadById` is not
under src (only its test is). Per the spec's error condition, it returns the
stored thread record, annotated with the author's username, and fails with a
not-found signal when the id does not correspond to any stored thread. -/
def getThreadById (threads : List ThreadRow) (users : List UserRow)
    (threadId : String) : Except RepoError ThreadView :=
  match threads.find? (fun t => t.id == threadId) with
  | none => Except.error RepoError.notFound
  | some t =>
      Except.ok
        { id := t.id
          title := t.title
          body := t.body
          date := t.date
          username := lookupUsername users t.user_id }

/-- Row-to-view projection used by `getCommentsByThreadId`
(id, username, date, content, is_delete). -/
def toCommentView (users : List UserRow) (c : CommentRow) : CommentView :=
  { id := c.id
    username := lookupUsername users c.user_id
    date := c.date
    content := c.content
    is_delete := c.is_delete }

/-- Modelled from the spec: `CommentRepositoryPostgres.getCommentsByThreadId`
is not under src (only its test is). Per the spec it returns the comments of
the given thread in chronological order by creation date, each with its
author's username. -/
def getCommentsByThreadId (comments : List CommentRow) (users : List UserRow)
    (threadId : String) : List CommentView :=
  (((comments.filter (fun c => c.thread_id == threadId)).mergeSort
      (fun a b => decide (a.date ≤ b.date))).map (toCommentView users))

/-- Modelled from the spec: `CommentRepositoryPostgres.verifyCommentByOwner`
is not under src (only its test is). Per the spec's authorization design it
mirrors `verifyReplyByOwner`: it raises an authorization failure exactly when
no stored comment has the given id and owner. -/
def verifyCommentByOwner (comments : List CommentRow) (commentId : String)
    (owner : String) : Except RepoError Unit :=
  if ((comments.filter (fun c => c.id == commentId && c.user_id == owner)).length) = 0 then
    Except.error RepoError.authorization
  else
    Except.ok ()

/-- Modelled from the spec: `CommentRepositoryPostgres.softDeleteCommentById`
is not under src (only its test is). Per the spec's soft-delete invariant it
mirrors `softDeleteReplyById`: it sets `is_delete` to true on the matching row
and throws `NotFoundError` when no row matched. -/
def softDeleteCommentById (comments : List CommentRow) (commentId : String) :
    Except RepoError (List CommentRow) :=
  if ((comments.filter (fun c => c.id == commentId)).length) = 0 then
    Except.error RepoError.notFound
  else
    Except.ok (comments.map (fun c =>
      if c.id == commentId then { c with is_delete := true } else c))

/-- Rendered reply in the assembled detail view
(id, content, date, username), per the use-case test's expected shape. -/
structure RenderedReply where
  id : String
  content : String
  date : String
  username : String
deriving DecidableEq

/-- Rendered comment in the assembled detail view
(id, username, date, content, replies). -/
structure RenderedComment where
  id : String
  username : String
  date : String
  content : String
  replies : List RenderedReply
deriving DecidableEq

/-- The assembled thread detail view: the thread record annotated with its
rendered comments. -/
structure DetailThread where
  id : String
  title : String
  body : String
  date : String
  username : String
  comments : List RenderedComment
deriving DecidableEq

/-- Placeholder shown for a soft-deleted comment. -/
def commentDeletedPlaceholder : String := "**komentar telah dihapus**"

/-- Placeholder shown for a soft-deleted reply. -/
def replyDeletedPlaceholder : String := "**balasan telah dihapus**"

/-- Modelled from the spec: the rendering step of `DetailThreadUseCase`
(its implementation file is not under src; only its unit test is). A reply
whose soft-delete flag is true has its content replaced by the fixed
placeholder; all other fields pass through unchanged and the internal
`comment_id` / `is_delete` columns are dropped from the view. -/
def renderReply (r : ReplyView) : RenderedReply :=
  { id := r.id
    content := if r.is_delete then replyDeletedPlaceholder else r.content
    date := r.date
    username := r.username }

/-- Modelled from the spec: the per-comment rendering step of
`DetailThreadUseCase`. A comment whose soft-delete flag is true has its
content replaced by the fixed placeholder; the comment is annotated with the
rendered replies whose `comment_id` equals the comment's id, in the order the
reply query returned them. -/
def renderComment (replies : List ReplyView) (c : CommentView) : RenderedComment :=
  { id := c.id
    username := c.username
    date := c.date
    content := if c.is_delete then commentDeletedPlaceholder else c.content
    replies := (replies.filter (fun r => r.comment_id == c.id)).map renderReply }

/-- Modelled from the spec: the pure assembly step of
`DetailThreadUseCase.execute` — the thread record annotated with the list of
its rendered comments, each annotated with its rendered replies. -/
def assembleDetailThread (t : ThreadView) (comments : List CommentView)
    (replies : List ReplyView) : DetailThread :=
  { id := t.id
    title := t.title
    body := t.body
    date := t.date
    username := t.username
    comments := comments.map (renderComment replies) }

/-- A repository interaction, for reasoning about which calls a use case
performs and whether they write. -/
inductive RepoOp where
  | readThreadById (threadId : String)
  | readCommentsByThreadId (threadId : String)
  | readRepliesByThreadId (threadId : String)
  | writeSoftDeleteComment (commentId : String)
  | writeSoftDeleteReply (replyId : String)
deriving DecidableEq

/-- Whether a repository interaction mutates stored state. -/
def RepoOp.isWrite : RepoOp → Bool
  | RepoOp.readThreadById _ => false
  | RepoOp.readCommentsByThreadId _ => false
  | RepoOp.readRepliesByThreadId _ => false
  | RepoOp.writeSoftDeleteComment _ => true
  | RepoOp.writeSoftDeleteReply _ => true

/-- Effect of a repository interaction on the stored state: reads leave it
unchanged, the soft-delete writes update the matching row's flag. -/
def applyRepoOp (db : ForumDb) : RepoOp → ForumDb
  | RepoOp.readThreadById _ => db
  | RepoOp.readCommentsByThreadId _ => db
  | RepoOp.readRepliesByThreadId _ => db
  | RepoOp.writeSoftDeleteComment cid =>
      { db with comments := db.comments.map (fun c =>
          if c.id == cid then { c with is_delete := true } else c) }
  | RepoOp.writeSoftDeleteReply rid =>
      { db with replies := db.replies.map (fun r =>
          if r.id == rid then { r with is_delete := true } else r) }

/-- Modelled from the spec: `DetailThreadUseCase.execute` (its implementation
file is not under src; only its unit test is). It awaits `getThreadById`,
then `getCommentsByThreadId`, then `getRepliesByThreadId`, all with the
requested thread id, and assembles the detail view; the list of repository
interactions it performed is returned alongside, in order. A failing
`getThreadById` aborts the sequence. -/
def DetailThreadUseCase_executeTraced (db : ForumDb) (threadId : String) :
    Except RepoError DetailThread × List RepoOp :=
  match getThreadById db.threads db.users threadId with
  | Except.error e => (Except.error e, [RepoOp.readThreadById threadId])
  | Except.ok t =>
      (Except.ok (assembleDetailThread t
          (getCommentsByThreadId db.comments db.users threadId)
          (getRepliesByThreadId db.replies db.comments db.users threadId)),
        [RepoOp.readThreadById threadId, RepoOp.readCommentsByThreadId threadId,
          RepoOp.readRepliesByThreadId threadId])

/-- Modelled from the spec: the value returned by
`DetailThreadUseCase.execute`. -/
def DetailThreadUseCase_execute (db : ForumDb) (threadId : String) :
    Except RepoError DetailThread :=
  (DetailThreadUseCase_executeTraced db threadId).1

/-- A JSON-ish payload value, to express the AddThread entity's type checks. -/
inductive JsVal where
  | str (s : String)
  | num (n : Int)
  | boolean (b : Bool)
deriving DecidableEq

/-- Input payload for the AddThread entity; a missing property is `none`. -/
structure AddThreadPayload where
  title : Option JsVal
  body : Option JsVal
  owner : Option JsVal
deriving DecidableEq

/-- Validation errors of the AddThread entity, as named in its test:
`ADD_THREAD.NOT_CONTAIN_NEEDED_PROPERTY`,
`ADD_THREAD.NOT_MEET_DATA_TYPE_SPECIFICATION`,
`ADD_THREAD.TITLE_LIMIT_CHAR`. -/
inductive EntityError where
  | notContainNeededProperty
  | notMeetDataTypeSpecification
  | titleLimitChar
deriving DecidableEq

/-- The validated AddThread entity (title, body, owner). -/
structure AddThread where
  title : String
  body : String
  owner : String
deriving DecidableEq

/-- Modelled from the spec: the AddThread entity constructor is not under src
(only its test is). Per the spec's validation design and the test, it fails
when a needed property is missing, then when a field is not a string, then
when the title exceeds 100 characters; otherwise it keeps the three fields
unchanged. -/
def AddThread.create (p : AddThreadPayload) : Except EntityError AddThread :=
  match p.title, p.body, p.owner with
  | some tv, some bv, some ov =>
      match tv, bv, ov with
      | JsVal.str t, JsVal.str b, JsVal.str o =>
          if 100 < t.length then Except.error EntityError.titleLimitChar
          else Except.ok { title := t, body := b, owner := o }
      | _, _, _ => Except.error EntityError.notMeetDataTypeSpecification
  | _, _, _ => Except.error EntityError.notContainNeededProperty

/-- The mocked thread record of the `DetailThreadUseCase` unit test. -/
def mockThreadView : ThreadView :=
  { id := "thread-123"
    title := "Example Title"
    body := "Example Body"
    date := "2023-11-07T05:48:24.301Z"
    username := "user123" }

/-- The mocked comment records of the `DetailThreadUseCase` unit test. -/
def mockCommentViews : List CommentView :=
  [ { id := "comment-123"
      username := "user123"
      date := "2023-11-07T05:50:15.640Z"
      content := "Example Comment 1"
      is_delete := true }
  , { id := "comment-456"
      username := "user456"
      date := "2023-11-07T05:50:15.640Z"
      content := "Example Comment 2"
      is_delete := false }
  , { id := "comment-789"
      username := "user789"
      date := "2023-11-07T05:50:15.640Z"
      content := "Example Comment 3"
      is_delete := false } ]

/-- The mocked reply records of the `DetailThreadUseCase` unit test. -/
def mockReplyViews : List ReplyView :=
  [ { id := "reply-123"
      content := "Example Reply 1"
      date := "2023-11-07T05:52:35.170Z"
      username := "user123"
      comment_id := "comment-123"
      is_delete := true }
  , { id := "reply-456"
      content := "Example Reply 2"
      date := "2023-11-07T05:52:35.170Z"
      username := "user456"
      comment_id := "comment-456"
      is_delete := false } ]

/-- The expected assembled detail view of the `DetailThreadUseCase` unit
test (`expectedDetailThread`). -/
def expectedDetailThread : DetailThread :=
  { id := "thread-123"
    title := "Example Title"
    body := "Example Body"
    date := "2023-11-07T05:48:24.301Z"
    username := "user123"
    comments :=
      [ { id := "comment-123"
          username := "user123"
          date := "2023-11-07T05:50:15.640Z"
          content := "**komentar telah dihapus**"
          replies :=
            [ { id := "reply-123"
                content := "**balasan telah dihapus**"
                date := "2023-11-07T05:52:35.170Z"
                username := "user123" } ] }
      , { id := "comment-456"
          username := "user456"
          date := "2023-11-07T05:50:15.640Z"
          content := "Example Comment 2"
          replies :=
            [ { id := "reply-456"
                content := "Example Reply 2"
                date := "2023-11-07T05:52:35.170Z"
                username := "user456" } ] }
      , { id := "comment-789"
          username := "user789"
          date := "2023-11-07T05:50:15.640Z"
          content := "Example Comment 3"
          replies := [] } ] }

/-- A small concrete database used to instantiate the theorems:
one user, one thread, one comment on it, one reply on the comment. -/
def wUser : UserRow := { id := "user-123", username := "dicoding" }

/-- The thread row of the small concrete database. -/
def wThread : ThreadRow :=
  { id := "thread-123"
    title := "Example Title"
    body := "Example Body"
    date := "2023-11-07T05:48:24.301Z"
    user_id := "user-123" }

/-- The comment row of the small concrete database. -/
def wComment : CommentRow :=
  { id := "comment-123"
    content := "Example Comment"
    user_id := "user-123"
    thread_id := "thread-123"
    date := "2023-11-07T05:50:15.640Z"
    is_delete := false }

/-- The reply row of the small concrete database. -/
def wReply : ReplyRow :=
  { id := "reply-123"
    content := "Example Reply"
    user_id := "user-123"
    comment_id := "comment-123"
    date := "2023-11-07T05:52:35.170Z"
    is_delete := false }

/-- The small concrete database assembled from the rows above. -/
def wDb : ForumDb :=
  { users := [wUser]
    threads := [wThread]
    comments := [wComment]
    replies := [wReply] }

/-- The thread view produced for `wThread` by `getThreadById`. -/
def wThreadView : ThreadView :=
  { id := "thread-123"
    title := "Example Title"
    body := "Example Body"
    date := "2023-11-07T05:48:24.301Z"
    username := "dicoding" }

/-- The over-length title used by the AddThread entity test
(115 characters). -/
def exLongTitle : String :=
  "Example title more than 100 character, Example title more than 100 character, Example title more than 100 character"

/-- A concrete database holding one thread and nothing else, used to
instantiate the use-case theorems on a closed input. -/
def wDbThreadOnly : ForumDb :=
  { users := [wUser]
    threads := [wThread]
    comments := []
    replies := [] }

/-- The detail view assembled for `wDbThreadOnly`: the thread with an empty
comment list. -/
def wDetailThreadOnly : DetailThread :=
  { id := "thread-123"
    title := "Example Title"
    body := "Example Body"
    date := "2023-11-07T05:48:24.301Z"
    username := "dicoding"
    comments := [] }

/-- The correctness bundle for the assembled detail view of thread `tid`:
the view repeats the fetched thread record; every comment in it comes from a
stored comment of the requested thread; every rendered reply sits under the
comment whose id equals the reply's `comment_id`; every fetched reply appears
under each comment with the matching id; and both the comment list and each
reply list are in chronological order by creation date. -/
def detailThreadWellFormed (db : ForumDb) (tid : String) (t : ThreadView)
    (d : DetailThread) : Prop :=
  d.id = t.id ∧ d.title = t.title ∧ d.body = t.body ∧ d.date = t.date ∧
  d.username = t.username ∧
  (∀ mc ∈ d.comments, ∃ row ∈ db.comments, row.thread_id = tid ∧ mc.id = row.id) ∧
  (∀ mc ∈ d.comments, ∀ mr ∈ mc.replies,
    ∃ rv ∈ getRepliesByThreadId db.replies db.comments db.users tid,
      rv.comment_id = mc.id ∧ mr = renderReply rv) ∧
  (∀ rv ∈ getRepliesByThreadId db.replies db.comments db.users tid,
    ∀ mc ∈ d.comments, mc.id = rv.comment_id → renderReply rv ∈ mc.replies) ∧
  d.comments.Pairwise (fun a b => a.date ≤ b.date) ∧
  (∀ mc ∈ d.comments, mc.replies.Pairwise (fun a b => a.date ≤ b.date))

theorem decideDateLe_trans {α : Type} (f : α → String) (a b c : α)
    (h1 : decide (f a ≤ f b) = true) (h2 : decide (f b ≤ f c) = true) :
    decide (f a ≤ f c) = true := by
  simp only [decide_eq_true_eq] at h1 h2 ⊢
  exact le_trans h1 h2

theorem decideDateLe_total {α : Type} (f : α → String) (a b : α) :
    (decide (f a ≤ f b) || decide (f b ≤ f a)) = true := by
  simp only [Bool.or_eq_true, decide_eq_true_eq]
  exact le_total (f a) (f b)

theorem filter_length_zero_iff {α : Type} (p : α → Bool) (l : List α) :
    ((l.filter p).length = 0) ↔ ∀ a ∈ l, p a = false := by
  simp [List.length_eq_zero, List.filter_eq_nil_iff]

theorem mem_getRepliesByThreadId (replies : List ReplyRow)
    (comments : List CommentRow) (users : List UserRow) (tid : String)
    (v : ReplyView) :
    v ∈ getRepliesByThreadId replies comments users tid ↔
      ∃ r, r ∈ replies ∧
        (comments.any (fun c => c.id == r.comment_id && c.thread_id == tid)) = true ∧
        v = toReplyView users r := by
  unfold getRepliesByThreadId
  simp only [List.mem_map, List.mem_mergeSort, List.mem_filter]
  constructor
  · rintro ⟨r, ⟨hr, hp⟩, hv⟩
    exact ⟨r, hr, hp, hv.symm⟩
  · rintro ⟨r, hr, hp, hv⟩
    exact ⟨r, ⟨hr, hp⟩, hv.symm⟩

theorem mem_getCommentsByThreadId (comments : List CommentRow)
    (users : List UserRow) (tid : String) (v : CommentView) :
    v ∈ getCommentsByThreadId comments users tid ↔
      ∃ c, c ∈ comments ∧ c.thread_id = tid ∧ v = toCommentView users c := by
  unfold getCommentsByThreadId
  simp only [List.mem_map, List.mem_mergeSort, List.mem_filter, beq_iff_eq]
  constructor
  · rintro ⟨c, ⟨hc, hp⟩, hv⟩
    exact ⟨c, hc, hp, hv.symm⟩
  · rintro ⟨c, hc, hp, hv⟩
    exact ⟨c, ⟨hc, hp⟩, hv.symm⟩

theorem getRepliesByThreadId_sorted (replies : List ReplyRow)
    (comments : List CommentRow) (users : List UserRow) (tid : String) :
    (getRepliesByThreadId replies comments users tid).Pairwise
      (fun a b => a.date ≤ b.date) := by
  unfold getRepliesByThreadId
  rw [List.pairwise_map]
  have h := List.sorted_mergeSort
    (decideDateLe_trans ReplyRow.date) (decideDateLe_total ReplyRow.date)
    (replies.filter (fun r =>
      comments.any (fun c => c.id == r.comment_id && c.thread_id == tid)))
  exact h.imp (fun hab => by simpa using hab)

theorem getCommentsByThreadId_sorted (comments : List CommentRow)
    (users : List UserRow) (tid : String) :
    (getCommentsByThreadId comments users tid).Pairwise
      (fun a b => a.date ≤ b.date) := by
  unfold getCommentsByThreadId
  rw [List.pairwise_map]
  have h := List.sorted_mergeSort
    (decideDateLe_trans CommentRow.date) (decideDateLe_total CommentRow.date)
    (comments.filter (fun c => c.thread_id == tid))
  exact h.imp (fun hab => by simpa using hab)

/-- C1: for every database and thread id whose thread exists, the detail
assembler returns the thread record annotated with its comments, each
annotated with its replies; every rendered reply is nested under the comment
whose id equals the reply's `comment_id`, every comment belongs to the
requested thread, and both the comment list and each reply list are in
chronological order by creation date. -/
theorem execute_detailThread_wellFormed (db : ForumDb) (tid : String)
    (t : ThreadView) (h : getThreadById db.threads db.users tid = Except.ok t) :
    ∃ d, DetailThreadUseCase_execute db tid = Except.ok d ∧
      detailThreadWellFormed db tid t d := by
  refine ⟨assembleDetailThread t (getCommentsByThreadId db.comments db.users tid)
      (getRepliesByThreadId db.replies db.comments db.users tid), ?_, ?_⟩
  · unfold DetailThreadUseCase_execute DetailThreadUseCase_executeTraced
    rw [h]
  · unfold detailThreadWellFormed assembleDetailThread
    refine ⟨rfl, rfl, rfl, rfl, rfl, ?_, ?_, ?_, ?_, ?_⟩
    · intro mc hmc
      simp only [List.mem_map] at hmc
      obtain ⟨c, hc, hmceq⟩ := hmc
      rw [mem_getCommentsByThreadId] at hc
      obtain ⟨row, hrow, htid, hcv⟩ := hc
      refine ⟨row, hrow, htid, ?_⟩
      rw [← hmceq, hcv]
      rfl
    · intro mc hmc mr hmr
      simp only [List.mem_map] at hmc
      obtain ⟨c, hc, rfl⟩ := hmc
      simp only [renderComment, List.mem_map, List.mem_filter, beq_iff_eq] at hmr
      obtain ⟨rv, ⟨hrv, hcid⟩, rfl⟩ := hmr
      exact ⟨rv, hrv, hcid, rfl⟩
    · intro rv hrv mc hmc hid
      simp only [List.mem_map] at hmc
      obtain ⟨c, hc, rfl⟩ := hmc
      show renderReply rv ∈
        ((getRepliesByThreadId db.replies db.comments db.users tid).filter
          (fun r => r.comment_id == c.id)).map renderReply
      refine List.mem_map_of_mem _ (List.mem_filter.mpr ⟨hrv, ?_⟩)
      simp only [beq_iff_eq]
      exact hid.symm
    · rw [List.pairwise_map]
      exact List.Pairwise.imp (fun hab => hab)
        (getCommentsByThreadId_sorted db.comments db.users tid)
    · intro mc hmc
      simp only [List.mem_map] at hmc
      obtain ⟨c, hc, rfl⟩ := hmc
      show (((getRepliesByThreadId db.replies db.comments db.users tid).filter
        (fun r => r.comment_id == c.id)).map renderReply).Pairwise
        (fun a b => a.date ≤ b.date)
      rw [List.pairwise_map]
      exact List.Pairwise.imp (fun hab => hab)
        (List.Pairwise.sublist (List.filter_sublist _)
          (getRepliesByThreadId_sorted db.replies db.comments db.users tid))

/-- Witness for C1 at the small concrete database: the thread exists and the
assembled view is well formed. -/
theorem execute_detailThread_wellFormed_witness :
    getThreadById wDb.threads wDb.users "thread-123" = Except.ok wThreadView ∧
    ∃ d, DetailThreadUseCase_execute wDb "thread-123" = Except.ok d ∧
      detailThreadWellFormed wDb "thread-123" wThreadView d :=
  ⟨rfl, execute_detailThread_wellFormed wDb "thread-123" wThreadView rfl⟩

/-- C2: in the assembled detail view, a soft-deleted comment's rendered
content is the literal `**komentar telah dihapus**` and a soft-deleted
reply's rendered content is `**balasan telah dihapus**`, while non-deleted
content passes through unchanged; and on the use-case test's concrete inputs
(thread-123 with comments comment-123/comment-456/comment-789 and replies
reply-123/reply-456) the assembler produces exactly the expected
masked/unmasked view, with comment-789 carrying an empty reply list. -/
theorem detail_masking_rule :
    (∀ (rs : List ReplyView) (c : CommentView),
      (renderComment rs c).content =
        if c.is_delete then "**komentar telah dihapus**" else c.content) ∧
    (∀ r : ReplyView,
      (renderReply r).content =
        if r.is_delete then "**balasan telah dihapus**" else r.content) ∧
    assembleDetailThread mockThreadView mockCommentViews mockReplyViews =
      expectedDetailThread ∧
    (expectedDetailThread.comments.get ⟨2, by decide⟩).replies = [] :=
  ⟨fun _ _ => rfl, fun _ => rfl, by decide, rfl⟩

/-- C3: rendering passes every field other than content through unchanged —
a rendered comment keeps its id, username and date, a rendered reply keeps
its id, username and date (soft-deleted or not), and the assembled view
keeps the thread's id, title, body, date and username. -/
theorem detail_frame_fields :
    (∀ (rs : List ReplyView) (c : CommentView),
      (renderComment rs c).id = c.id ∧
      (renderComment rs c).username = c.username ∧
      (renderComment rs c).date = c.date) ∧
    (∀ r : ReplyView,
      (renderReply r).id = r.id ∧
      (renderReply r).username = r.username ∧
      (renderReply r).date = r.date) ∧
    (∀ (t : ThreadView) (cs : List CommentView) (rs : List ReplyView),
      (assembleDetailThread t cs rs).id = t.id ∧
      (assembleDetailThread t cs rs).title = t.title ∧
      (assembleDetailThread t cs rs).body = t.body ∧
      (assembleDetailThread t cs rs).date = t.date ∧
      (assembleDetailThread t cs rs).username = t.username) :=
  ⟨fun _ _ => ⟨rfl, rfl, rfl⟩, fun _ => ⟨rfl, rfl, rfl⟩,
    fun _ _ _ => ⟨rfl, rfl, rfl, rfl, rfl⟩⟩

/-- C4: the detail assembler fails with the not-found signal exactly when no
stored thread has the requested id, and succeeds exactly when one does. -/
theorem execute_notFound_iff (db : ForumDb) (tid : String) :
    (DetailThreadUseCase_execute db tid = Except.error RepoError.notFound ↔
      ∀ t ∈ db.threads, t.id ≠ tid) ∧
    ((∃ d, DetailThreadUseCase_execute db tid = Except.ok d) ↔
      ∃ t ∈ db.threads, t.id = tid) := by
  rcases hf : db.threads.find? (fun t => t.id == tid) with _ | t
  · have hall : ∀ u ∈ db.threads, u.id ≠ tid := by
      rw [List.find?_eq_none] at hf
      simpa using hf
    have h1 : DetailThreadUseCase_execute db tid = Except.error RepoError.notFound := by
      unfold DetailThreadUseCase_execute DetailThreadUseCase_executeTraced getThreadById
      rw [hf]
    constructor
    · simp only [h1, true_iff]
      exact hall
    · simp only [h1]
      constructor
      · rintro ⟨d, hd⟩
        exact Except.noConfusion hd
      · rintro ⟨u, hu, hid⟩
        exact absurd hid (hall u hu)
  · have hmem := List.mem_of_find?_eq_some hf
    have hp : t.id = tid := by simpa using List.find?_some hf
    have h2 : DetailThreadUseCase_execute db tid = Except.ok (assembleDetailThread
        { id := t.id, title := t.title, body := t.body, date := t.date,
          username := lookupUsername db.users t.user_id }
        (getCommentsByThreadId db.comments db.users tid)
        (getRepliesByThreadId db.replies db.comments db.users tid)) := by
      unfold DetailThreadUseCase_execute DetailThreadUseCase_executeTraced getThreadById
      rw [hf]
    constructor
    · rw [h2]
      constructor
      · intro h
        exact Except.noConfusion h
      · intro hforall
        exact absurd hp (hforall t hmem)
    · constructor
      · intro _
        exact ⟨t, hmem, hp⟩
      · intro _
        exact ⟨_, h2⟩

/-- C5: constructing the AddThread entity from a payload of three string
fields fails with ADD_THREAD.TITLE_LIMIT_CHAR when the title exceeds 100
characters, and otherwise succeeds with the three fields unchanged. -/
theorem addThread_titleLimit (t b o : String) :
    (100 < t.length →
      AddThread.create
          { title := some (JsVal.str t), body := some (JsVal.str b),
            owner := some (JsVal.str o) } =
        Except.error EntityError.titleLimitChar) ∧
    (t.length ≤ 100 →
      AddThread.create
          { title := some (JsVal.str t), body := some (JsVal.str b),
            owner := some (JsVal.str o) } =
        Except.ok { title := t, body := b, owner := o }) := by
  constructor
  · intro h
    simp only [AddThread.create, if_pos h]
  · intro h
    simp only [AddThread.create, if_neg (Nat.not_lt.mpr h)]

/-- Witness for C5 at the AddThread test's payloads: the 115-character title
is rejected with the length error, and the short title yields the entity with
its fields unchanged. -/
theorem addThread_titleLimit_witness :
    (100 < exLongTitle.length ∧
      AddThread.create
          { title := some (JsVal.str exLongTitle),
            body := some (JsVal.str "Example Body"),
            owner := some (JsVal.str "user-123") } =
        Except.error EntityError.titleLimitChar) ∧
    (("Example Title" : String).length ≤ 100 ∧
      AddThread.create
          { title := some (JsVal.str "Example Title"),
            body := some (JsVal.str "Example Body"),
            owner := some (JsVal.str "user-123") } =
        Except.ok { title := "Example Title", body := "Example Body", owner := "user-123" }) :=
  ⟨⟨by decide,
      (addThread_titleLimit exLongTitle "Example Body" "user-123").1 (by decide)⟩,
    ⟨by decide,
      (addThread_titleLimit "Example Title" "Example Body" "user-123").2 (by decide)⟩⟩

theorem ownerFilter_length_zero_iff {α : Type} (fid fown : α → String)
    (l : List α) (x : α) (u : String) (hx : x ∈ l) (hn : (l.map fid).Nodup) :
    ((l.filter (fun y => fid y == fid x && fown y == u)).length = 0) ↔
      u ≠ fown x := by
  rw [filter_length_zero_iff]
  constructor
  · intro h hu
    have := h x hx
    simp [hu] at this
  · intro hu y hy
    by_cases hidy : fid y = fid x
    · have hyx : y = x := List.inj_on_of_nodup_map hn hy hx hidy
      subst hyx
      simp only [beq_self_eq_true, Bool.true_and, beq_eq_false_iff_ne, ne_eq]
      exact fun h => hu h.symm
    · simp [hidy]

/-- C6: for every stored reply (resp. comment) under unique ids and every
user identifier, the ownership check raises the authorization error exactly
when the user is not the stored owner, and succeeds exactly when the user is
the owner. -/
theorem verifyOwner_authorization_iff (rdb : List ReplyRow)
    (cdb : List CommentRow) (r : ReplyRow) (c : CommentRow) (u v : String)
    (hr : r ∈ rdb) (hrn : (rdb.map ReplyRow.id).Nodup)
    (hc : c ∈ cdb) (hcn : (cdb.map CommentRow.id).Nodup) :
    (verifyReplyByOwner rdb r.id u = Except.error RepoError.authorization ↔
      u ≠ r.user_id) ∧
    (verifyReplyByOwner rdb r.id u = Except.ok () ↔ u = r.user_id) ∧
    (verifyCommentByOwner cdb c.id v = Except.error RepoError.authorization ↔
      v ≠ c.user_id) ∧
    (verifyCommentByOwner cdb c.id v = Except.ok () ↔ v = c.user_id) := by
  have hrl := ownerFilter_length_zero_iff ReplyRow.id ReplyRow.user_id rdb r u hr hrn
  have hcl := ownerFilter_length_zero_iff CommentRow.id CommentRow.user_id cdb c v hc hcn
  unfold verifyReplyByOwner verifyCommentByOwner
  refine ⟨?_, ?_, ?_, ?_⟩
  · by_cases h : ((rdb.filter (fun y => y.id == r.id && y.user_id == u)).length = 0)
    · simp only [if_pos h, true_iff]
      exact hrl.mp h
    · simp only [if_neg h]
      constructor
      · intro he
        exact Except.noConfusion he
      · intro hu
        exact absurd (hrl.mpr hu) h
  · by_cases h : ((rdb.filter (fun y => y.id == r.id && y.user_id == u)).length = 0)
    · simp only [if_pos h]
      constructor
      · intro he
        exact Except.noConfusion he
      · intro hu
        exact absurd h (by simpa [hrl] using hu)
    · simp only [if_neg h, true_iff]
      by_contra hu
      exact h (hrl.mpr hu)
  · by_cases h : ((cdb.filter (fun y => y.id == c.id && y.user_id == v)).length = 0)
    · simp only [if_pos h, true_iff]
      exact hcl.mp h
    · simp only [if_neg h]
      constructor
      · intro he
        exact Except.noConfusion he
      · intro hv
        exact absurd (hcl.mpr hv) h
  · by_cases h : ((cdb.filter (fun y => y.id == c.id && y.user_id == v)).length = 0)
    · simp only [if_pos h]
      constructor
      · intro he
        exact Except.noConfusion he
      · intro hv
        exact absurd h (by simpa [hcl] using hv)
    · simp only [if_neg h, true_iff]
      by_contra hv
      exact h (hcl.mpr hv)

/-- Witness for C6 at one stored reply and one stored comment: the stored
owner passes both checks and a different user is rejected by both. -/
theorem verifyOwner_authorization_iff_witness :
    (wReply ∈ [wReply] ∧ ([wReply].map ReplyRow.id).Nodup ∧
      wComment ∈ [wComment] ∧ ([wComment].map CommentRow.id).Nodup) ∧
    ((verifyReplyByOwner [wReply] wReply.id "user-456" =
        Except.error RepoError.authorization ↔ "user-456" ≠ wReply.user_id) ∧
      (verifyReplyByOwner [wReply] wReply.id "user-456" = Except.ok () ↔
        "user-456" = wReply.user_id) ∧
      (verifyCommentByOwner [wComment] wComment.id "user-123" =
        Except.error RepoError.authorization ↔ "user-123" ≠ wComment.user_id) ∧
      (verifyCommentByOwner [wComment] wComment.id "user-123" = Except.ok () ↔
        "user-123" = wComment.user_id)) :=
  ⟨⟨by decide, by decide, by decide, by decide⟩,
    verifyOwner_authorization_iff [wReply] [wComment] wReply wComment
      "user-456" "user-123" (by decide) (by decide) (by decide) (by decide)⟩

/-- C7: a successful run of the detail use case performs exactly the three
reads `getThreadById`, `getCommentsByThreadId`, `getRepliesByThreadId`, each
once with the requested thread id; none of its repository interactions is a
write, and replaying its interactions against the stored state leaves every
stored thread, comment and reply unchanged. -/
theorem execute_readOnly (db : ForumDb) (tid : String) (d : DetailThread)
    (h : (DetailThreadUseCase_executeTraced db tid).1 = Except.ok d) :
    (DetailThreadUseCase_executeTraced db tid).2 =
      [RepoOp.readThreadById tid, RepoOp.readCommentsByThreadId tid,
        RepoOp.readRepliesByThreadId tid] ∧
    (∀ op ∈ (DetailThreadUseCase_executeTraced db tid).2, op.isWrite = false) ∧
    ((DetailThreadUseCase_executeTraced db tid).2.foldl applyRepoOp db = db) := by
  rcases hf : getThreadById db.threads db.users tid with e | t
  · exfalso
    have herr : (DetailThreadUseCase_executeTraced db tid).1 = Except.error e := by
      unfold DetailThreadUseCase_executeTraced
      rw [hf]
    rw [herr] at h
    exact Except.noConfusion h
  · have htr : DetailThreadUseCase_executeTraced db tid =
        (Except.ok (assembleDetailThread t
            (getCommentsByThreadId db.comments db.users tid)
            (getRepliesByThreadId db.replies db.comments db.users tid)),
          [RepoOp.readThreadById tid, RepoOp.readCommentsByThreadId tid,
            RepoOp.readRepliesByThreadId tid]) := by
      unfold DetailThreadUseCase_executeTraced
      rw [hf]
    rw [htr]
    refine ⟨rfl, ?_, rfl⟩
    intro op hop
    simp only [List.mem_cons, List.not_mem_nil, or_false] at hop
    rcases hop with rfl | rfl | rfl <;> rfl

/-- Witness for C7 at the thread-only concrete database: the run succeeds
and its interaction list is the three reads, write-free and state-preserving. -/
theorem execute_readOnly_witness :
    ((DetailThreadUseCase_executeTraced wDbThreadOnly "thread-123").1 =
      Except.ok wDetailThreadOnly) ∧
    ((DetailThreadUseCase_executeTraced wDbThreadOnly "thread-123").2 =
      [RepoOp.readThreadById "thread-123", RepoOp.readCommentsByThreadId "thread-123",
        RepoOp.readRepliesByThreadId "thread-123"] ∧
    (∀ op ∈ (DetailThreadUseCase_executeTraced wDbThreadOnly "thread-123").2,
      op.isWrite = false) ∧
    ((DetailThreadUseCase_executeTraced wDbThreadOnly "thread-123").2.foldl
      applyRepoOp wDbThreadOnly = wDbThreadOnly)) := by
  have hyp : (DetailThreadUseCase_executeTraced wDbThreadOnly "thread-123").1 =
      Except.ok wDetailThreadOnly := by
    unfold DetailThreadUseCase_executeTraced
    rw [show getThreadById wDbThreadOnly.threads wDbThreadOnly.users "thread-123" =
      Except.ok wThreadView from rfl]
    simp only [getCommentsByThreadId, getRepliesByThreadId, wDbThreadOnly,
      List.filter_nil, List.mergeSort_nil, List.map_nil]
    rfl
  exact ⟨hyp, execute_readOnly wDbThreadOnly "thread-123" wDetailThreadOnly hyp⟩

/-- C8: soft-deleting a stored reply (resp. comment) succeeds, keeps the
table's length, keeps the record present, and changes nothing but the
soft-delete flag: every row keeps its id, content, owner, parent id and date,
and a row's flag becomes true exactly on the matching id (true rows stay
true). -/
theorem softDelete_preserves_fields (rdb : List ReplyRow) (rid : String)
    (r : ReplyRow) (cdb : List CommentRow) (cid : String) (c : CommentRow)
    (hr : r ∈ rdb) (hrid : r.id = rid) (hc : c ∈ cdb) (hcid : c.id = cid) :
    (∃ rdb2, softDeleteReplyById rdb rid = Except.ok rdb2 ∧
      rdb2.length = rdb.length ∧
      { r with is_delete := true } ∈ rdb2 ∧
      ∀ i (h1 : i < rdb.length) (h2 : i < rdb2.length),
        (rdb2.get ⟨i, h2⟩).id = (rdb.get ⟨i, h1⟩).id ∧
        (rdb2.get ⟨i, h2⟩).content = (rdb.get ⟨i, h1⟩).content ∧
        (rdb2.get ⟨i, h2⟩).user_id = (rdb.get ⟨i, h1⟩).user_id ∧
        (rdb2.get ⟨i, h2⟩).comment_id = (rdb.get ⟨i, h1⟩).comment_id ∧
        (rdb2.get ⟨i, h2⟩).date = (rdb.get ⟨i, h1⟩).date ∧
        (rdb2.get ⟨i, h2⟩).is_delete =
          ((rdb.get ⟨i, h1⟩).is_delete || ((rdb.get ⟨i, h1⟩).id == rid))) ∧
    (∃ cdb2, softDeleteCommentById cdb cid = Except.ok cdb2 ∧
      cdb2.length = cdb.length ∧
      { c with is_delete := true } ∈ cdb2 ∧
      ∀ i (h1 : i < cdb.length) (h2 : i < cdb2.length),
        (cdb2.get ⟨i, h2⟩).id = (cdb.get ⟨i, h1⟩).id ∧
        (cdb2.get ⟨i, h2⟩).content = (cdb.get ⟨i, h1⟩).content ∧
        (cdb2.get ⟨i, h2⟩).user_id = (cdb.get ⟨i, h1⟩).user_id ∧
        (cdb2.get ⟨i, h2⟩).thread_id = (cdb.get ⟨i, h1⟩).thread_id ∧
        (cdb2.get ⟨i, h2⟩).date = (cdb.get ⟨i, h1⟩).date ∧
        (cdb2.get ⟨i, h2⟩).is_delete =
          ((cdb.get ⟨i, h1⟩).is_delete || ((cdb.get ⟨i, h1⟩).id == cid))) := by
  constructor
  · have hne : ¬ ((rdb.filter (fun y => y.id == rid)).length = 0) := by
      rw [filter_length_zero_iff]
      push_neg
      exact ⟨r, hr, by simp [hrid]⟩
    refine ⟨rdb.map (fun y => if y.id == rid then { y with is_delete := true } else y),
      ?_, ?_, ?_, ?_⟩
    · unfold softDeleteReplyById
      rw [if_neg hne]
    · exact List.length_map rdb _
    · have hfr : (if r.id == rid then { r with is_delete := true } else r) =
          { r with is_delete := true } := by
        simp [hrid]
      exact hfr ▸ List.mem_map_of_mem _ hr
    · intro i h1 h2
      have hg : (rdb.map (fun y => if y.id == rid then { y with is_delete := true } else y)).get
          ⟨i, h2⟩ = (fun y => if y.id == rid then { y with is_delete := true } else y)
            (rdb.get ⟨i, h1⟩) := by
        simp [List.get_eq_getElem, List.getElem_map]
      rw [hg]
      by_cases hb : ((rdb.get ⟨i, h1⟩).id == rid) = true
      · simp only [if_pos hb, hb, Bool.or_true]
        exact ⟨rfl, rfl, rfl, rfl, rfl, rfl⟩
      · have hb2 : ((rdb.get ⟨i, h1⟩).id == rid) = false := by
          simpa using hb
        simp only [if_neg hb, hb2, Bool.or_false]
        exact ⟨rfl, rfl, rfl, rfl, rfl, rfl⟩
  · have hne : ¬ ((cdb.filter (fun y => y.id == cid)).length = 0) := by
      rw [filter_length_zero_iff]
      push_neg
      exact ⟨c, hc, by simp [hcid]⟩
    refine ⟨cdb.map (fun y => if y.id == cid then { y with is_delete := true } else y),
      ?_, ?_, ?_, ?_⟩
    · unfold softDeleteCommentById
      rw [if_neg hne]
    · exact List.length_map cdb _
    · have hfc : (if c.id == cid then { c with is_delete := true } else c) =
          { c with is_delete := true } := by
        simp [hcid]
      exact hfc ▸ List.mem_map_of_mem _ hc
    · intro i h1 h2
      have hg : (cdb.map (fun y => if y.id == cid then { y with is_delete := true } else y)).get
          ⟨i, h2⟩ = (fun y => if y.id == cid then { y with is_delete := true } else y)
            (cdb.get ⟨i, h1⟩) := by
        simp [List.get_eq_getElem, List.getElem_map]
      rw [hg]
      by_cases hb : ((cdb.get ⟨i, h1⟩).id == cid) = true
      · simp only [if_pos hb, hb, Bool.or_true]
        exact ⟨rfl, rfl, rfl, rfl, rfl, rfl⟩
      · have hb2 : ((cdb.get ⟨i, h1⟩).id == cid) = false := by
          simpa using hb
        simp only [if_neg hb, hb2, Bool.or_false]
        exact ⟨rfl, rfl, rfl, rfl, rfl, rfl⟩

/-- Witness for C8 at the singleton reply and comment tables. -/
theorem softDelete_preserves_fields_witness :
    (wReply ∈ [wReply] ∧ wReply.id = "reply-123" ∧
      wComment ∈ [wComment] ∧ wComment.id = "comment-123") ∧
    ((∃ rdb2, softDeleteReplyById [wReply] "reply-123" = Except.ok rdb2 ∧
      rdb2.length = [wReply].length ∧
      { wReply with is_delete := true } ∈ rdb2 ∧
      ∀ i (h1 : i < [wReply].length) (h2 : i < rdb2.length),
        (rdb2.get ⟨i, h2⟩).id = ([wReply].get ⟨i, h1⟩).id ∧
        (rdb2.get ⟨i, h2⟩).content = ([wReply].get ⟨i, h1⟩).content ∧
        (rdb2.get ⟨i, h2⟩).user_id = ([wReply].get ⟨i, h1⟩).user_id ∧
        (rdb2.get ⟨i, h2⟩).comment_id = ([wReply].get ⟨i, h1⟩).comment_id ∧
        (rdb2.get ⟨i, h2⟩).date = ([wReply].get ⟨i, h1⟩).date ∧
        (rdb2.get ⟨i, h2⟩).is_delete =
          (([wReply].get ⟨i, h1⟩).is_delete || (([wReply].get ⟨i, h1⟩).id == "reply-123"))) ∧
    (∃ cdb2, softDeleteCommentById [wComment] "comment-123" = Except.ok cdb2 ∧
      cdb2.length = [wComment].length ∧
      { wComment with is_delete := true } ∈ cdb2 ∧
      ∀ i (h1 : i < [wComment].length) (h2 : i < cdb2.length),
        (cdb2.get ⟨i, h2⟩).id = ([wComment].get ⟨i, h1⟩).id ∧
        (cdb2.get ⟨i, h2⟩).content = ([wComment].get ⟨i, h1⟩).content ∧
        (cdb2.get ⟨i, h2⟩).user_id = ([wComment].get ⟨i, h1⟩).user_id ∧
        (cdb2.get ⟨i, h2⟩).thread_id = ([wComment].get ⟨i, h1⟩).thread_id ∧
        (cdb2.get ⟨i, h2⟩).date = ([wComment].get ⟨i, h1⟩).date ∧
        (cdb2.get ⟨i, h2⟩).is_delete =
          (([wComment].get ⟨i, h1⟩).is_delete || (([wComment].get ⟨i, h1⟩).id == "comment-123")))) :=
  ⟨⟨by decide, by decide, by decide, by decide⟩,
    softDelete_preserves_fields [wReply] "reply-123" wReply [wComment] "comment-123"
      wComment (by decide) (by decide) (by decide) (by decide)⟩

/-- C9: `verifyAvailableReplyById` raises the not-found error exactly when
every stored reply with the given id is soft-deleted (in particular when no
reply has the id), and reports the reply available exactly when a reply with
the id exists whose soft-delete flag is false. -/
theorem verifyAvailableReplyById_iff (replies : List ReplyRow) (rid : String) :
    (verifyAvailableReplyById replies rid = Except.error RepoError.notFound ↔
      ∀ r ∈ replies, r.id = rid → r.is_delete = true) ∧
    (verifyAvailableReplyById replies rid = Except.ok () ↔
      ∃ r ∈ replies, r.id = rid ∧ r.is_delete = false) := by
  unfold verifyAvailableReplyById
  by_cases h : ((replies.filter (fun r => r.id == rid && r.is_delete == false)).length = 0)
  · rw [if_pos h]
    rw [filter_length_zero_iff] at h
    constructor
    · simp only [true_iff]
      intro r hrm hid
      have hp := h r hrm
      simp only [hid, beq_self_eq_true, Bool.true_and, beq_eq_false_iff_ne, ne_eq] at hp
      simpa using hp
    · constructor
      · intro he
        exact Except.noConfusion he
      · rintro ⟨r, hrm, hid, hdel⟩
        have hp := h r hrm
        simp [hid, hdel] at hp
  · rw [if_neg h]
    have h2 : ∃ r ∈ replies, (r.id == rid && r.is_delete == false) = true := by
      by_contra hno
      push_neg at hno
      apply h
      rw [filter_length_zero_iff]
      intro a ha
      simpa using hno a ha
    obtain ⟨r, hrm, hp⟩ := h2
    rw [Bool.and_eq_true, beq_iff_eq, beq_iff_eq] at hp
    constructor
    · constructor
      · intro he
        exact Except.noConfusion he
      · intro hall
        have hcon := hall r hrm hp.1
        rw [hp.2] at hcon
        exact Bool.noConfusion hcon
    · simp only [true_iff]
      exact ⟨r, hrm, hp.1, hp.2⟩

/-- C10: soft-deleting a reply is idempotent on stored state — after a
successful soft delete, soft-deleting the same id again succeeds (the update
still matches the row) and leaves the table exactly as it was. -/
theorem softDeleteReplyById_idempotent (rdb rdb2 : List ReplyRow) (rid : String)
    (h : softDeleteReplyById rdb rid = Except.ok rdb2) :
    softDeleteReplyById rdb2 rid = Except.ok rdb2 := by
  unfold softDeleteReplyById at h ⊢
  by_cases h0 : ((rdb.filter (fun y => y.id == rid)).length = 0)
  · rw [if_pos h0] at h
    exact Except.noConfusion h
  · rw [if_neg h0] at h
    have hdb2 : rdb2 =
        rdb.map (fun y => if y.id == rid then { y with is_delete := true } else y) :=
      (Except.ok.inj h).symm
    obtain ⟨r, hrm, hp⟩ : ∃ r ∈ rdb, (r.id == rid) = true := by
      by_contra hno
      push_neg at hno
      apply h0
      rw [filter_length_zero_iff]
      intro a ha
      simpa using hno a ha
    have h02 : ¬ ((rdb2.filter (fun y => y.id == rid)).length = 0) := by
      rw [filter_length_zero_iff]
      push_neg
      refine ⟨{ r with is_delete := true }, ?_, ?_⟩
      · rw [hdb2]
        have hfr : (if r.id == rid then { r with is_delete := true } else r) =
            { r with is_delete := true } := by
          rw [if_pos hp]
        exact hfr ▸ List.mem_map_of_mem _ hrm
      · show (({ r with is_delete := true } : ReplyRow).id == rid) ≠ false
        simpa using hp
    rw [if_neg h02]
    congr 1
    rw [hdb2, List.map_map]
    apply List.map_congr_left
    intro a _
    by_cases hb : (a.id == rid) = true
    · simp [Function.comp, hb]
    · have hb2 : (a.id == rid) = false := by simpa using hb
      simp [Function.comp, hb2]

/-- Witness for C10 at the singleton reply table: the second soft delete of
the already-deleted reply succeeds and changes nothing. -/
theorem softDeleteReplyById_idempotent_witness :
    softDeleteReplyById [wReply] "reply-123" =
      Except.ok [{ wReply with is_delete := true }] ∧
    softDeleteReplyById [{ wReply with is_delete := true }] "reply-123" =
      Except.ok [{ wReply with is_delete := true }] :=
  ⟨rfl, softDeleteReplyById_idempotent [wReply] [{ wReply with is_delete := true }]
    "reply-123" rfl⟩

end ForumApi
